import Mathlib

/-!
Shallow embedding of `src/utils/carla_connector.py` (repository
`carla_bc`) and verification of its specification claims.

The module is a thin convenience layer over an external driving
simulator: every effectful call into the simulator (connecting,
spawning, mutating actors, reading poses) is modelled by explicit
state passing over a `World` record plus oracle inputs that decide the
outcomes the external simulator controls (whether a request raises,
which element `random.choice` picks, what pose the camera has at each
instant).  Python exceptions are modelled with `Except String`; a
`try/except` block is a `match` on the embedded body's result.
-/

deriving instance DecidableEq for Except

namespace CarlaBC

/-- A rigid-body pose (location plus rotation) in the simulator world.
The connector never computes with poses — it only builds one constant
offset and copies poses verbatim — so integer components give a
faithful model. -/
structure Transform where
  x : Int := 0
  y : Int := 0
  z : Int := 0
  pitch : Int := 0
  yaw : Int := 0
  roll : Int := 0
deriving DecidableEq

/-- Modelled from the spec: a blueprint in the external simulator's
catalog, carrying an identifier and a list of tags.  The spec's
"vehicle category" is the set of blueprints tagged "vehicle".  The
catalog itself is owned by the external simulator. -/
structure Blueprint where
  id : String
  tags : List String
deriving DecidableEq

/-- An actor handle: an entity placed in the scene.  `autopilot` is the
autonomous-driving flag, `alive` models handle staleness (an operation
on a non-alive actor raises), `attachedTo`/`rel` record sensor
attachment to a parent actor at a relative offset. -/
structure Actor where
  aid : Nat
  type_id : String
  autopilot : Bool := false
  alive : Bool := true
  attachedTo : Option Nat := none
  rel : Option Transform := none
deriving DecidableEq

/-- The scene's time-stepping configuration, as read and written by
`world.get_settings()` / `world.apply_settings(...)`. -/
structure WorldSettings where
  synchronous_mode : Bool := false
  fixed_delta_seconds : Rat := 0
deriving DecidableEq

/-- The external simulator's world state, as far as this layer can
observe it.  `ticks` counts explicit simulation ticks: no function in
this module ever increments it, which is exactly the "does not tick the
simulation itself" part of the contract.  `nextId` supplies fresh actor
ids for spawns. -/
structure World where
  blueprint_library : List Blueprint := []
  spawn_points : List Transform := []
  actors : List Actor := []
  spectator : Transform := {}
  settings : WorldSettings := {}
  ticks : Nat := 0
  nextId : Nat := 0
deriving DecidableEq

/-- The client handle returned by `carla.Client(host, port)` after
`set_timeout(timeout)`. -/
structure Client where
  host : String
  port : Nat
  timeout : Rat
deriving DecidableEq

/-- Decides whether the first list begins the second (character lists). -/
def isPre : List Char → List Char → Bool
  | [], _ => true
  | _ :: _, [] => false
  | a :: as, b :: bs => a == b && isPre as bs

/-- Decides whether `needle` occurs as a contiguous substring of the
second list. -/
def hasSub (needle : List Char) : List Char → Bool
  | [] => needle.isEmpty
  | c :: rest => isPre needle (c :: rest) || hasSub needle rest

/-- Modelled from the spec: the external library's wildcard `filter`
semantics, which this repository's code calls but does not define.
Only two pattern shapes occur in the repository: a plain word, which
must equal the candidate string exactly (so the plain pattern "vehicle"
selects exactly the vehicle category — every vehicle is tagged
"vehicle"), and a word wrapped in asterisks, which must occur as a
substring (so "*vehicle*" selects everything whose identifier or tag
contains "vehicle"). -/
def wildMatch (pat : List Char) (s : List Char) : Bool :=
  match pat with
  | '*' :: inner => hasSub inner.dropLast s
  | _ => pat == s

/-- A blueprint matches a pattern when its identifier or one of its
tags does (modelled from the spec; this is `BlueprintLibrary.filter`'s
per-element test). -/
def Blueprint.matches (b : Blueprint) (pat : String) : Bool :=
  wildMatch pat.data b.id.data || b.tags.any (fun t => wildMatch pat.data t.data)

/-- Modelled from the spec: `blueprint_library.filter(pat)`. -/
def filterLib (lib : List Blueprint) (pat : String) : List Blueprint :=
  lib.filter (fun b => b.matches pat)

/-- Per-element test of `world.get_actors().filter('*vehicle*')`: the
actor's identifier contains "vehicle". -/
def vehicleLike (a : Actor) : Bool :=
  wildMatch "*vehicle*".data a.type_id.data

/-- Modelled from the spec: `random.choice(l)` raises `IndexError` on
an empty sequence and otherwise picks uniformly; uniformity is modelled
by the caller-supplied oracle index `r` reduced modulo the length, so
every element is the outcome for some `r` and the draw always ranges
over the whole list. -/
def randomChoice (l : List α) (r : Nat) : Except String α :=
  match l with
  | [] => Except.error "Cannot choose from an empty sequence"
  | x :: xs =>
      Except.ok ((x :: xs).get ⟨r % (xs.length + 1), Nat.mod_lt r (Nat.succ_pos xs.length)⟩)

/-- Oracle for the steps of `connect_to_carla` whose outcome the
external simulator decides: the world behind the connection and, for
each external call in the body, whether it raises. -/
structure ConnectEnv where
  world : World
  clientRaises : Bool := false
  setTimeoutRaises : Bool := false
  getWorldRaises : Bool := false
  getSettingsRaises : Bool := false
  applySettingsRaises : Bool := false

/-- The `try:` body of `connect_to_carla`: build the client, set its
timeout, fetch the world and, in synchronous mode, rewrite the world's
settings to synchronous with the given fixed step.  Returns the
handles plus the lines printed on the success path, or the exception
text. -/
def connectBody (env : ConnectEnv) (host : String) (port : Nat) (timeout : Rat)
    (synchronous : Bool) (fixed_delta_seconds : Rat) :
    Except String (Client × World × List String) :=
  if env.clientRaises then Except.error "connection refused" else
  let client : Client := { host := host, port := port, timeout := timeout }
  if env.setTimeoutRaises then Except.error "failed to set timeout" else
  if env.getWorldRaises then Except.error "time-out while waiting for the simulator" else
  let world := env.world
  if synchronous then
    if env.getSettingsRaises then Except.error "failed to read settings" else
    let settings : WorldSettings :=
      { world.settings with synchronous_mode := true,
                            fixed_delta_seconds := fixed_delta_seconds }
    if env.applySettingsRaises then Except.error "failed to apply settings" else
    Except.ok (client, { world with settings := settings },
      ["CARLA running in synchronous mode with " ++ toString fixed_delta_seconds
        ++ "s fixed time step"])
  else
    Except.ok (client, world, [])

/-- `connect_to_carla(host, port, timeout, synchronous, fixed_delta_seconds)`:
the body above wrapped in the function's own `try/except`, which prints
the cause and returns the `(None, None)` failure marker.  The first
component is the log of printed lines. -/
def connect_to_carla (env : ConnectEnv) (host : String) (port : Nat) (timeout : Rat)
    (synchronous : Bool := false) (fixed_delta_seconds : Rat := mkRat 1 20) :
    List String × Option Client × Option World :=
  match connectBody env host port timeout synchronous fixed_delta_seconds with
  | Except.ok (c, w, log) => (log, some c, some w)
  | Except.error e => (["Error connecting to Carla: " ++ e], none, none)

/-- Result of `spawn_vehicle`: printed lines, the actor (or the `None`
failure marker), final world. -/
structure OneResult where
  log : List String
  vehicle : Option Actor
  world : World
deriving DecidableEq

/-- Truthiness of the optional `vehicle_type` argument: Python's
`if vehicle_type:` is false for `None` and for the empty string. -/
def strTruthy : Option String → Bool
  | none => false
  | some s => !(s == "")

/-- The `try:` body of `spawn_vehicle`: pick the first blueprint
matching `vehicle_type` (raising `IndexError` when the filter matches
nothing), or a random blueprint of the vehicle category when no filter
is given; pick a random registered spawn point (raising on an empty
list); then issue the strict `world.spawn_actor`, whose outcome the
external simulator decides through `spawnOk` (a raise when the
location is occupied or invalid). -/
def spawnOneBody (w : World) (vehicle_type : Option String) (rBp rSp : Nat)
    (spawnOk : Bool) : Except String (Actor × World) :=
  let lib := w.blueprint_library
  let bpE : Except String Blueprint :=
    if strTruthy vehicle_type then
      match filterLib lib (vehicle_type.getD "") with
      | [] => Except.error "list index out of range"
      | b :: _ => Except.ok b
    else
      randomChoice (filterLib lib "vehicle") rBp
  match bpE with
  | Except.error e => Except.error e
  | Except.ok bp =>
    match randomChoice w.spawn_points rSp with
    | Except.error e => Except.error e
    | Except.ok _ =>
      if spawnOk then
        let a : Actor := { aid := w.nextId, type_id := bp.id }
        Except.ok (a, { w with actors := w.actors ++ [a], nextId := w.nextId + 1 })
      else Except.error "spawn failed because of collision at spawn position"

/-- `spawn_vehicle(world, vehicle_type)`: the body wrapped in the
function's own `try/except`, printing the cause and returning `None`. -/
def spawn_vehicle (w : World) (vehicle_type : Option String) (rBp rSp : Nat)
    (spawnOk : Bool) : OneResult :=
  match spawnOneBody w vehicle_type rBp rSp spawnOk with
  | Except.ok (a, w') => { log := [], vehicle := some a, world := w' }
  | Except.error e => { log := ["Error spawning vehicle: " ++ e], vehicle := none, world := w }

/-- Result of `spawn_vehicles`: printed lines, final world, the number
of loop iterations entered (spawn attempts), and per attempt the
blueprint/spawn-point pair handed to the lenient spawn (`none` when a
draw raised before the spawn request could be issued). -/
structure ManyResult where
  log : List String
  world : World
  attempts : Nat
  draws : List (Option (Blueprint × Transform))
deriving DecidableEq

/-- Truthiness of the optional `vehicle_types` argument: Python's
`if vehicle_types:` is false for `None` and for the empty list. -/
def listTruthy : Option (List String) → Bool
  | some (_ :: _) => true
  | _ => false

/-- The upfront list comprehension
`[blueprint_library.filter(t)[0] for t in vehicle_types]`: it raises
`IndexError` at the first filter with no match, before any spawn
attempt happens. -/
def resolveBlueprints (lib : List Blueprint) : List String → Except String (List Blueprint)
  | [] => Except.ok []
  | t :: ts =>
    match filterLib lib t with
    | [] => Except.error "list index out of range"
    | b :: _ =>
      match resolveBlueprints lib ts with
      | Except.error e => Except.error e
      | Except.ok bs => Except.ok (b :: bs)

/-- Candidate blueprints of `spawn_vehicles`: one per listed filter
when `vehicle_types` is truthy, otherwise everything matching the
wildcard pattern "*vehicle*". -/
def resolveCandidates (lib : List Blueprint) (vehicle_types : Option (List String)) :
    Except String (List Blueprint) :=
  if listTruthy vehicle_types then resolveBlueprints lib (vehicle_types.getD [])
  else Except.ok (filterLib lib "*vehicle*")

/-- The `for i in range(num_vehicles)` loop of `spawn_vehicles`.  Each
iteration is one spawn attempt under its own `try/except`: the two
`random.choice` draws happen on the full candidate and spawn-point
lists every time (replacement), a raising draw is logged and the loop
continues, and the lenient `try_spawn_actor` adds an actor exactly
when the oracle `spawnOk` grants the request (failing silently
otherwise). -/
def spawnManyLoop (bps : List Blueprint) (rBp rSp : Nat → Nat) (spawnOk : Nat → Bool)
    (sps : List Transform) :
    Nat → Nat → World → List String → Nat → List (Option (Blueprint × Transform)) → ManyResult
  | 0, _, w, log, att, ds => { log := log, world := w, attempts := att, draws := ds }
  | n+1, i, w, log, att, ds =>
    match randomChoice bps (rBp i) with
    | Except.error e =>
      spawnManyLoop bps rBp rSp spawnOk sps n (i+1) w
        (log ++ ["Error spawning vehicle: " ++ e]) (att+1) (ds ++ [none])
    | Except.ok bp =>
      match randomChoice sps (rSp i) with
      | Except.error e =>
        spawnManyLoop bps rBp rSp spawnOk sps n (i+1) w
          (log ++ ["Error spawning vehicle: " ++ e]) (att+1) (ds ++ [none])
      | Except.ok sp =>
        if spawnOk i then
          let a : Actor := { aid := w.nextId, type_id := bp.id }
          spawnManyLoop bps rBp rSp spawnOk sps n (i+1)
            { w with actors := w.actors ++ [a], nextId := w.nextId + 1 }
            log (att+1) (ds ++ [some (bp, sp)])
        else
          spawnManyLoop bps rBp rSp spawnOk sps n (i+1) w log (att+1) (ds ++ [some (bp, sp)])

/-- `spawn_vehicles(world, num_vehicles, vehicle_types)`: resolve the
candidate blueprints and the spawn points, then run the attempt loop;
a failure in the resolution step is caught by the function's outer
`try/except`, which prints the cause and returns with no attempt
performed. -/
def spawn_vehicles (w : World) (num_vehicles : Nat) (vehicle_types : Option (List String))
    (rBp rSp : Nat → Nat) (spawnOk : Nat → Bool) : ManyResult :=
  match resolveCandidates w.blueprint_library vehicle_types with
  | Except.error e =>
      { log := ["Error spawning vehicles: " ++ e], world := w, attempts := 0, draws := [] }
  | Except.ok bps => spawnManyLoop bps rBp rSp spawnOk w.spawn_points num_vehicles 0 w [] 0 []

/-- Pointwise effect of a completed `set_autopilot` pass on one actor. -/
def setIfVehicle (enable : Bool) (a : Actor) : Actor :=
  if vehicleLike a then { a with autopilot := enable } else a

/-- The `for vehicle in world.get_actors().filter('*vehicle*')` loop of
`set_autopilot`: actors whose identifier does not contain "vehicle"
are not part of the filtered iteration and are never touched; setting
the flag on a stale (destroyed) vehicle raises, and the exception
aborts all remaining iterations, leaving the rest of the list
unchanged. -/
def setAutopilotGo (enable : Bool) : List Actor → List Actor × Option String
  | [] => ([], none)
  | a :: rest =>
    if vehicleLike a then
      if a.alive then
        let r := setAutopilotGo enable rest
        ({ a with autopilot := enable } :: r.1, r.2)
      else
        (a :: rest, some "actor destroyed")
    else
      let r := setAutopilotGo enable rest
      (a :: r.1, r.2)

/-- `set_autopilot(world, enable)`: the loop wrapped in the function's
own `try/except`, printing the cause of an abort. -/
def set_autopilot (w : World) (enable : Bool) : List String × World :=
  let r := setAutopilotGo enable w.actors
  (match r.2 with
   | none => []
   | some e => ["Error setting autopilot: " ++ e],
   { w with actors := r.1 })

/-- The `for actor in world.get_actors()` loop of `destroy_actors`:
each successful destroy removes the actor; the oracle decides whether
the i-th destroy raises, which aborts the remaining iterations. -/
def destroyGo (raises : Nat → Bool) : List Actor → Nat → List Actor × Option String
  | [], _ => ([], none)
  | a :: rest, i =>
    if raises i then (a :: rest, some "failed to destroy actor")
    else destroyGo raises rest (i+1)

/-- `destroy_actors(world)`: the loop wrapped in the function's own
`try/except`. -/
def destroy_actors (w : World) (raises : Nat → Bool) : List String × World :=
  let r := destroyGo raises w.actors 0
  (match r.2 with
   | none => []
   | some e => ["Error destroying actors: " ++ e],
   { w with actors := r.1 })

/-- How the loop of `follow_vehicle` ended: a set stop signal (clean
break, nothing printed), a `KeyboardInterrupt` delivered during the
sleep (clean break, message printed by the inner handler), or an
exception while copying the pose (message printed by the outer
handler). -/
inductive LoopExit
  | stopped
  | interrupted
  | failed
deriving DecidableEq

/-- Oracle for the external outcomes of `follow_vehicle`.
`spawnRaises` stands for a failure in any of the setup steps that run
before the `try:` (obtaining the spectator, finding the camera
blueprint, spawning the attached camera, the initial pose copy) — in
the source none of these is inside a handler.  `camPose i` is the
camera's world pose when iteration `i` reads it, `copyFails i` says
whether iteration `i`'s pose copy raises (e.g. the camera's parent was
destroyed concurrently), `interrupt i` whether a `KeyboardInterrupt`
arrives in iteration `i`'s sleep. -/
structure FollowEnv where
  spawnRaises : Bool := false
  setupPose : Transform := {}
  camPose : Nat → Transform := fun _ => {}
  copyFails : Nat → Bool := fun _ => false
  interrupt : Nat → Bool := fun _ => false

/-- Observable state of `follow_vehicle`'s loop: the world (whose
`spectator` field the loop rewrites), the printed lines, how many
times `stop_event.is_set()` was consulted, the sequence of poses
copied onto the spectator by the loop, and how the loop ended (`none`
while it is still running). -/
structure FollowState where
  world : World
  log : List String
  checks : Nat
  trace : List Transform
  exit : Option LoopExit
deriving DecidableEq

/-- The fixed camera offset `Transform(Location(x=-4, z=4),
Rotation(pitch=-25))`: behind, above, pitched down. -/
def cameraRel : Transform := { x := -4, z := 4, pitch := -25 }

/-- The `while True:` loop of `follow_vehicle`, with fuel bounding how
many iterations we observe (the source loop is unbounded).  Per
iteration `i`: consult the signal iff `stop_event` is truthy, breaking
cleanly when it is set; otherwise copy the camera pose onto the
spectator — a raise here leaves the inner `except KeyboardInterrupt`
unmatched and is caught by the outer handler, ending the loop — and
sleep, where a `KeyboardInterrupt` is caught by the inner handler and
breaks cleanly. -/
def followLoop (stop_event : Option (Nat → Bool)) (env : FollowEnv) :
    Nat → Nat → FollowState → FollowState
  | 0, _, st => st
  | n+1, i, st =>
    let st1 :=
      match stop_event with
      | some _ => { st with checks := st.checks + 1 }
      | none => st
    let stopNow :=
      match stop_event with
      | some sig => sig i
      | none => false
    if stopNow then { st1 with exit := some LoopExit.stopped }
    else if env.copyFails i then
      { st1 with log := st1.log ++ ["Error setting spectator transform: actor destroyed"],
                 exit := some LoopExit.failed }
    else
      let st2 := { st1 with
        world := { st1.world with spectator := env.camPose i },
        trace := st1.trace ++ [env.camPose i] }
      if env.interrupt i then
        { st2 with log := st2.log ++ ["Camera follow interrupted by user"],
                   exit := some LoopExit.interrupted }
      else followLoop stop_event env n (i+1) st2

/-- `follow_vehicle(world, vehicle, stop_event)`: the setup phase runs
first and outside any `try/except` — a raise there escapes to the
caller as `Except.error`.  It spawns the rgb-camera sensor attached to
the vehicle at the fixed offset, snaps the spectator to the camera's
pose once, and only then enters the loop. -/
def follow_vehicle (w : World) (vehicle : Actor) (stop_event : Option (Nat → Bool))
    (env : FollowEnv) (fuel : Nat) : Except String FollowState :=
  if env.spawnRaises then
    Except.error "unable to attach camera: parent actor destroyed"
  else
    let camera : Actor := { aid := w.nextId, type_id := "sensor.camera.rgb",
                            attachedTo := some vehicle.aid, rel := some cameraRel }
    let w1 : World := { w with
      actors := w.actors ++ [camera]
      nextId := w.nextId + 1
      spectator := env.setupPose }
    Except.ok (followLoop stop_event env fuel 0
      { world := w1, log := [], checks := 0, trace := [], exit := none })

/-- Per-attempt draw of `spawn_vehicles`, stated the way the spec
words it: attempt `i` draws a blueprint and a spawn point
independently (with replacement) from the full candidate list and the
full registered spawn-point list, through the two uniform choices. -/
def drawAt (bps : List Blueprint) (sps : List Transform) (rBp rSp : Nat → Nat)
    (i : Nat) : Option (Blueprint × Transform) :=
  match randomChoice bps (rBp i), randomChoice sps (rSp i) with
  | Except.ok b, Except.ok p => some (b, p)
  | _, _ => none

/-- State right after `follow_vehicle`'s setup phase: the camera actor
has been spawned attached to the vehicle at the fixed offset and the
spectator has been snapped to the camera's pose once, with the loop
not yet entered. -/
def followInit (w : World) (vehicle : Actor) (env : FollowEnv) : FollowState :=
  { world := { w with
      actors := w.actors ++ [{ aid := w.nextId, type_id := "sensor.camera.rgb",
                               attachedTo := some vehicle.aid, rel := some cameraRel }]
      nextId := w.nextId + 1
      spectator := env.setupPose }
    log := []
    checks := 0
    trace := []
    exit := none }

/-! Concrete instances used to exercise the theorems. -/

def envOk : ConnectEnv := { world := {} }

def libA : List Blueprint :=
  [{ id := "vehicle.tesla.model3", tags := ["vehicle", "tesla"] }]

def wNoPoints : World := { blueprint_library := libA, spawn_points := [] }

def wOnePoint : World := { blueprint_library := libA, spawn_points := [{ x := 1 }] }

def wFleet : World :=
  { blueprint_library := libA
    actors := [{ aid := 0, type_id := "vehicle.a" },
               { aid := 1, type_id := "sensor.b" },
               { aid := 2, type_id := "vehicle.c", alive := false },
               { aid := 3, type_id := "vehicle.d" }] }

def sigW : Nat → Bool := fun i => decide (2 ≤ i)

def vehW : Actor := { aid := 9, type_id := "vehicle.a" }

def envRaise : FollowEnv := { spawnRaises := true }

/-! Helper lemmas about `connect_to_carla`. -/

theorem connect_to_carla_of_error (env : ConnectEnv) (host : String) (port : Nat)
    (timeout : Rat) (sy : Bool) (s : Rat) (e : String)
    (h : connectBody env host port timeout sy s = Except.error e) :
    connect_to_carla env host port timeout sy s
      = (["Error connecting to Carla: " ++ e], none, none) := by
  simp [connect_to_carla, h]

theorem connect_to_carla_of_ok (env : ConnectEnv) (host : String) (port : Nat)
    (timeout : Rat) (sy : Bool) (s : Rat) (c : Client) (w : World) (l : List String)
    (h : connectBody env host port timeout sy s = Except.ok (c, w, l)) :
    connect_to_carla env host port timeout sy s = (l, some c, some w) := by
  simp [connect_to_carla, h]

theorem connectBody_sync_ok (env : ConnectEnv) (host : String) (port : Nat)
    (timeout s : Rat)
    (h1 : env.clientRaises = false) (h2 : env.setTimeoutRaises = false)
    (h3 : env.getWorldRaises = false) (h4 : env.getSettingsRaises = false)
    (h5 : env.applySettingsRaises = false) :
    connectBody env host port timeout true s =
      Except.ok ({ host := host, port := port, timeout := timeout },
        { env.world with settings :=
            { env.world.settings with synchronous_mode := true, fixed_delta_seconds := s } },
        ["CARLA running in synchronous mode with " ++ toString s ++ "s fixed time step"]) := by
  simp [connectBody, h1, h2, h3, h4, h5]

theorem connectBody_async_ok (env : ConnectEnv) (host : String) (port : Nat)
    (timeout s : Rat)
    (h1 : env.clientRaises = false) (h2 : env.setTimeoutRaises = false)
    (h3 : env.getWorldRaises = false) :
    connectBody env host port timeout false s =
      Except.ok ({ host := host, port := port, timeout := timeout }, env.world, []) := by
  simp [connectBody, h1, h2, h3]

/-- C2: a successful synchronous connect returns a world whose settings
have synchronous mode enabled and fixed step exactly the requested
`s`, and the connector performs no simulation tick of its own (the
tick counter of the returned world is the simulator's, untouched). -/
theorem connect_sync_mode_configured (env : ConnectEnv) (host : String) (port : Nat)
    (timeout s : Rat)
    (h1 : env.clientRaises = false) (h2 : env.setTimeoutRaises = false)
    (h3 : env.getWorldRaises = false) (h4 : env.getSettingsRaises = false)
    (h5 : env.applySettingsRaises = false) :
    ∃ c w, (connect_to_carla env host port timeout true s).2 = (some c, some w) ∧
      w.settings.synchronous_mode = true ∧
      w.settings.fixed_delta_seconds = s ∧
      w.ticks = env.world.ticks := by
  refine ⟨{ host := host, port := port, timeout := timeout },
    { env.world with settings :=
        { env.world.settings with synchronous_mode := true, fixed_delta_seconds := s } },
    ?_, rfl, rfl, rfl⟩
  rw [connect_to_carla_of_ok env host port timeout true s _ _ _
    (connectBody_sync_ok env host port timeout s h1 h2 h3 h4 h5)]

theorem connect_sync_mode_configured_witness :
    ∃ c w, (connect_to_carla envOk "localhost" 2000 10 true (mkRat 1 20)).2
        = (some c, some w) ∧
      w.settings.synchronous_mode = true ∧
      w.settings.fixed_delta_seconds = mkRat 1 20 ∧
      w.ticks = envOk.world.ticks :=
  connect_sync_mode_configured envOk "localhost" 2000 10 (mkRat 1 20) rfl rfl rfl rfl rfl

/-- C5: `connect_to_carla` never hands out partial handles — the client
handle is `None` exactly when the world handle is; every body failure
yields the full failure marker with the cause logged; and when no
external step raises, both handles are present. -/
theorem connect_failure_no_partial_handles (env : ConnectEnv) (host : String) (port : Nat)
    (timeout s : Rat) (sy : Bool) :
    ((connect_to_carla env host port timeout sy s).2.1 = none ↔
      (connect_to_carla env host port timeout sy s).2.2 = none) ∧
    (∀ e, connectBody env host port timeout sy s = Except.error e →
      connect_to_carla env host port timeout sy s
        = (["Error connecting to Carla: " ++ e], none, none)) ∧
    ((connect_to_carla env host port timeout sy s).2.1 = none →
      (connect_to_carla env host port timeout sy s).1 ≠ []) ∧
    ((env.clientRaises || env.setTimeoutRaises || env.getWorldRaises ||
        (sy && (env.getSettingsRaises || env.applySettingsRaises))) = false →
      (connect_to_carla env host port timeout sy s).2.1.isSome = true ∧
      (connect_to_carla env host port timeout sy s).2.2.isSome = true) := by
  refine ⟨?_, ?_, ?_, ?_⟩
  · cases h : connectBody env host port timeout sy s with
    | ok v => simp [connect_to_carla, h]
    | error e => simp [connect_to_carla, h]
  · intro e h
    exact connect_to_carla_of_error env host port timeout sy s e h
  · cases h : connectBody env host port timeout sy s with
    | ok v => simp [connect_to_carla, h]
    | error e => simp [connect_to_carla, h]
  · intro hflags
    simp only [Bool.or_eq_false_iff, Bool.and_eq_false_iff] at hflags
    obtain ⟨⟨⟨hc, ht⟩, hw⟩, hrest⟩ := hflags
    cases sy with
    | false =>
        rw [connect_to_carla_of_ok env host port timeout false s _ _ _
          (connectBody_async_ok env host port timeout s hc ht hw)]
        exact ⟨rfl, rfl⟩
    | true =>
        rcases hrest with h | hgs
        · exact absurd h (by simp)
        · rw [connect_to_carla_of_ok env host port timeout true s _ _ _
            (connectBody_sync_ok env host port timeout s hc ht hw hgs.1 hgs.2)]
          exact ⟨rfl, rfl⟩

theorem connect_failure_no_partial_handles_witness :
    ((connect_to_carla envOk "localhost" 2000 10 false (mkRat 1 20)).2.1.isSome = true ∧
      (connect_to_carla envOk "localhost" 2000 10 false (mkRat 1 20)).2.2.isSome = true) :=
  (connect_failure_no_partial_handles envOk "localhost" 2000 10 (mkRat 1 20) false).2.2.2
    (by decide)

/-! Helper lemmas about list indexing, substring matching and the
spawn loop. -/

theorem range_map_shift {α : Type} (g : Nat → α) (i n : Nat) :
    (List.range (n+1)).map (fun j => g (i + j))
      = g i :: (List.range n).map (fun j => g ((i+1) + j)) := by
  rw [List.range_succ_eq_map, List.map_cons, List.map_map]
  refine congrArg₂ _ (by rw [Nat.add_zero]) ?_
  apply List.map_congr_left
  intro a _
  show g (i + (a + 1)) = g ((i + 1) + a)
  congr 1
  omega

theorem isPre_self (l : List Char) : isPre l l = true := by
  induction l with
  | nil => rfl
  | cons c cs ih => simp [isPre, ih]

theorem hasSub_self (l : List Char) : hasSub l l = true := by
  cases l with
  | nil => rfl
  | cons c cs => simp [hasSub, isPre_self]

theorem hasSub_of_beq (n s : List Char) (h : (n == s) = true) : hasSub n s = true := by
  have hns : n = s := by simpa using h
  subst hns
  exact hasSub_self n

theorem wildMatch_star_vehicle (s : List Char) :
    wildMatch "*vehicle*".data s = hasSub "vehicle".data s := rfl

theorem wildMatch_plain_vehicle (s : List Char) :
    wildMatch "vehicle".data s = ("vehicle".data == s) := rfl

theorem matches_star_of_matches_plain (b : Blueprint)
    (h : b.matches "vehicle" = true) : b.matches "*vehicle*" = true := by
  simp only [Blueprint.matches, wildMatch_plain_vehicle, wildMatch_star_vehicle,
    Bool.or_eq_true, List.any_eq_true] at h ⊢
  rcases h with h | ⟨t, ht, hbeq⟩
  · exact Or.inl (hasSub_of_beq _ _ h)
  · exact Or.inr ⟨t, ht, hasSub_of_beq _ _ hbeq⟩

theorem filterLib_vehicle_subset (lib : List Blueprint) (b : Blueprint)
    (h : b ∈ filterLib lib "vehicle") : b ∈ filterLib lib "*vehicle*" := by
  simp only [filterLib, List.mem_filter] at h ⊢
  exact ⟨h.1, matches_star_of_matches_plain b h.2⟩

theorem randomChoice_support {α : Type} (l : List α) (b : α) (h : b ∈ l) :
    ∃ r, randomChoice l r = Except.ok b := by
  cases l with
  | nil => cases h
  | cons x xs =>
    obtain ⟨⟨i, hi⟩, hget⟩ := List.mem_iff_get.mp h
    have hlen : i < xs.length + 1 := by simpa using hi
    have hmod : i % (xs.length + 1) = i := Nat.mod_eq_of_lt hlen
    refine ⟨i, ?_⟩
    simp only [randomChoice, hmod, Except.ok.injEq]
    exact hget

theorem spawnManyLoop_attempts (bps : List Blueprint) (rBp rSp : Nat → Nat)
    (ok : Nat → Bool) (sps : List Transform) :
    ∀ (n i : Nat) (w : World) (log : List String) (att : Nat)
      (ds : List (Option (Blueprint × Transform))),
      (spawnManyLoop bps rBp rSp ok sps n i w log att ds).attempts = att + n := by
  intro n
  induction n with
  | zero => intro i w log att ds; simp [spawnManyLoop]
  | succ n ih =>
    intro i w log att ds
    cases c1 : randomChoice bps (rBp i) with
    | error e =>
      simp only [spawnManyLoop, c1]
      rw [ih]; omega
    | ok bp =>
      cases c2 : randomChoice sps (rSp i) with
      | error e =>
        simp only [spawnManyLoop, c1, c2]
        rw [ih]; omega
      | ok sp =>
        cases hok : ok i with
        | true =>
          simp only [spawnManyLoop, c1, c2, hok, if_true]
          rw [ih]; omega
        | false =>
          simp only [spawnManyLoop, c1, c2, hok, Bool.false_eq_true, if_false]
          rw [ih]; omega

theorem spawnManyLoop_no_points (bps : List Blueprint) (rBp rSp : Nat → Nat)
    (ok : Nat → Bool) :
    ∀ (n i : Nat) (w : World) (log : List String) (att : Nat)
      (ds : List (Option (Blueprint × Transform))),
      (spawnManyLoop bps rBp rSp ok [] n i w log att ds).log.length = log.length + n ∧
      (spawnManyLoop bps rBp rSp ok [] n i w log att ds).world = w := by
  intro n
  induction n with
  | zero => intro i w log att ds; simp [spawnManyLoop]
  | succ n ih =>
    intro i w log att ds
    cases c1 : randomChoice bps (rBp i) with
    | error e =>
      simp only [spawnManyLoop, c1]
      refine ⟨?_, (ih (i+1) w _ (att+1) _).2⟩
      rw [(ih (i+1) w _ (att+1) _).1]
      simp only [List.length_append, List.length_cons, List.length_nil]
      omega
    | ok bp =>
      have hsp : randomChoice ([] : List Transform) (rSp i)
          = Except.error "Cannot choose from an empty sequence" := rfl
      simp only [spawnManyLoop, c1, hsp]
      refine ⟨?_, (ih (i+1) w _ (att+1) _).2⟩
      rw [(ih (i+1) w _ (att+1) _).1]
      simp only [List.length_append, List.length_cons, List.length_nil]
      omega

theorem spawnManyLoop_draws (bps : List Blueprint) (rBp rSp : Nat → Nat)
    (ok : Nat → Bool) (sps : List Transform) :
    ∀ (n i : Nat) (w : World) (log : List String) (att : Nat)
      (ds : List (Option (Blueprint × Transform))),
      (spawnManyLoop bps rBp rSp ok sps n i w log att ds).draws
        = ds ++ (List.range n).map (fun j => drawAt bps sps rBp rSp (i + j)) := by
  intro n
  induction n with
  | zero => intro i w log att ds; simp [spawnManyLoop]
  | succ n ih =>
    intro i w log att ds
    rw [range_map_shift (drawAt bps sps rBp rSp) i n]
    have hd : drawAt bps sps rBp rSp i
        = match randomChoice bps (rBp i), randomChoice sps (rSp i) with
          | Except.ok b, Except.ok p => some (b, p)
          | _, _ => none := rfl
    cases c1 : randomChoice bps (rBp i) with
    | error e =>
      simp only [spawnManyLoop, c1]
      rw [ih]
      simp [hd, c1]
    | ok bp =>
      cases c2 : randomChoice sps (rSp i) with
      | error e =>
        simp only [spawnManyLoop, c1, c2]
        rw [ih]
        simp [hd, c1, c2]
      | ok sp =>
        cases hok : ok i with
        | true =>
          simp only [spawnManyLoop, c1, c2, hok, if_true]
          rw [ih]
          simp [hd, c1, c2]
        | false =>
          simp only [spawnManyLoop, c1, c2, hok, Bool.false_eq_true, if_false]
          rw [ih]
          simp [hd, c1, c2]

theorem resolveBlueprints_error_of_empty (lib : List Blueprint) :
    ∀ (ts : List String) (t : String), t ∈ ts → filterLib lib t = [] →
      resolveBlueprints lib ts = Except.error "list index out of range" := by
  intro ts
  induction ts with
  | nil => intro t h; cases h
  | cons u us ih =>
    intro t hmem hempty
    simp only [resolveBlueprints]
    cases hu : filterLib lib u with
    | nil => rfl
    | cons b bs =>
      rcases List.mem_cons.mp hmem with rfl | hmem'
      · rw [hu] at hempty; cases hempty
      · rw [ih t hmem' hempty]

/-- C4: with the candidate blueprints successfully resolved,
`spawn_vehicles` enters its attempt loop exactly `count` times no
matter how many attempts succeed, and with zero registered spawn
points every attempt fails with one logged line and the world —
actors included — is left unchanged. -/
theorem spawn_many_exactly_count (w : World) (num : Nat) (vt : Option (List String))
    (rBp rSp : Nat → Nat) (ok : Nat → Bool) (bps : List Blueprint)
    (hres : resolveCandidates w.blueprint_library vt = Except.ok bps) :
    (spawn_vehicles w num vt rBp rSp ok).attempts = num ∧
    (w.spawn_points = [] →
      (spawn_vehicles w num vt rBp rSp ok).log.length = num ∧
      (spawn_vehicles w num vt rBp rSp ok).world = w) := by
  constructor
  · simp only [spawn_vehicles, hres]
    rw [spawnManyLoop_attempts]
    omega
  · intro hsp
    simp only [spawn_vehicles, hres, hsp]
    have h := spawnManyLoop_no_points bps rBp rSp ok num 0 w [] 0 []
    refine ⟨?_, h.2⟩
    rw [h.1]
    simp

theorem spawn_many_exactly_count_witness :
    (spawn_vehicles wNoPoints 5 none (fun _ => 0) (fun _ => 0) (fun _ => true)).attempts = 5 ∧
    (wNoPoints.spawn_points = [] →
      (spawn_vehicles wNoPoints 5 none (fun _ => 0) (fun _ => 0) (fun _ => true)).log.length = 5 ∧
      (spawn_vehicles wNoPoints 5 none (fun _ => 0) (fun _ => 0) (fun _ => true)).world = wNoPoints) :=
  spawn_many_exactly_count wNoPoints 5 none (fun _ => 0) (fun _ => 0) (fun _ => true)
    (filterLib libA "*vehicle*") rfl

/-- C6 counterexample: with a filter list containing a filter that
matches no blueprint, the batch is aborted during the upfront
blueprint resolution — zero spawn attempts are performed and no actor
is created, instead of the failing draw being skipped per attempt. -/
theorem spawn_many_nomatch_counterexample :
    (spawn_vehicles wOnePoint 3 (some ["audi"]) (fun _ => 0) (fun _ => 0)
        (fun _ => true)).attempts = 0 ∧
    (spawn_vehicles wOnePoint 3 (some ["audi"]) (fun _ => 0) (fun _ => 0)
        (fun _ => true)).world.actors = wOnePoint.actors := by
  decide

/-- C6 amended: a no-match filter in `vehicle_types` raises during the
upfront candidate resolution, before the attempt loop; the failure is
caught at the whole-batch boundary and logged, and the batch is
aborted with zero attempts performed and the world unchanged.  (Only
failures inside an individual attempt are swallowed per-attempt.) -/
theorem spawn_many_nomatch_aborts_batch (w : World) (num : Nat) (ts : List String)
    (rBp rSp : Nat → Nat) (ok : Nat → Bool) (t : String)
    (hmem : t ∈ ts) (hempty : filterLib w.blueprint_library t = []) :
    spawn_vehicles w num (some ts) rBp rSp ok =
      { log := ["Error spawning vehicles: list index out of range"],
        world := w, attempts := 0, draws := [] } := by
  have hts : listTruthy (some ts) = true := by
    cases ts with
    | nil => cases hmem
    | cons a l => rfl
  have hres : resolveCandidates w.blueprint_library (some ts)
      = Except.error "list index out of range" := by
    simp only [resolveCandidates, hts, if_true, Option.getD_some]
    exact resolveBlueprints_error_of_empty w.blueprint_library ts t hmem hempty
  simp [spawn_vehicles, hres]

theorem spawn_many_nomatch_aborts_batch_witness :
    spawn_vehicles wOnePoint 3 (some ["audi"]) (fun _ => 0) (fun _ => 0) (fun _ => true) =
      { log := ["Error spawning vehicles: list index out of range"],
        world := wOnePoint, attempts := 0, draws := [] } :=
  spawn_many_nomatch_aborts_batch wOnePoint 3 ["audi"] (fun _ => 0) (fun _ => 0)
    (fun _ => true) "audi" (by decide) (by decide)

/-- C7: `spawn_vehicle` with a filter that matches no blueprint
returns the `None` failure marker with the cause logged (the escaping
`IndexError` is caught at the function's own boundary); with a
matching filter the first matching blueprint is used for a strict
spawn, which returns the new actor when the simulator grants it and
the logged failure marker when the strict request raises. -/
theorem spawn_one_filter_outcomes (w : World) (t : String) (rBp rSp : Nat) (ok : Bool)
    (ht : t ≠ "") :
    (filterLib w.blueprint_library t = [] →
      spawn_vehicle w (some t) rBp rSp ok =
        { log := ["Error spawning vehicle: list index out of range"],
          vehicle := none, world := w }) ∧
    (∀ b bs p ps, filterLib w.blueprint_library t = b :: bs →
      w.spawn_points = p :: ps →
      (ok = true →
        spawn_vehicle w (some t) rBp rSp ok =
          { log := [], vehicle := some { aid := w.nextId, type_id := b.id },
            world := { w with
              actors := w.actors ++ [{ aid := w.nextId, type_id := b.id }],
              nextId := w.nextId + 1 } }) ∧
      (ok = false →
        spawn_vehicle w (some t) rBp rSp ok =
          { log := ["Error spawning vehicle: spawn failed because of collision at spawn position"],
            vehicle := none, world := w })) := by
  have hstr : strTruthy (some t) = true := by
    simp [strTruthy, ht]
  constructor
  · intro hfil
    simp [spawn_vehicle, spawnOneBody, hstr, hfil]
  · intro b bs p ps hfil hsp
    constructor
    · intro hok
      subst hok
      simp [spawn_vehicle, spawnOneBody, hstr, hfil, hsp, randomChoice]
    · intro hok
      subst hok
      simp [spawn_vehicle, spawnOneBody, hstr, hfil, hsp, randomChoice]

theorem spawn_one_filter_outcomes_witness :
    (filterLib wOnePoint.blueprint_library "audi" = [] →
      spawn_vehicle wOnePoint (some "audi") 0 0 true =
        { log := ["Error spawning vehicle: list index out of range"],
          vehicle := none, world := wOnePoint }) ∧
    (∀ b bs p ps, filterLib wOnePoint.blueprint_library "audi" = b :: bs →
      wOnePoint.spawn_points = p :: ps →
      (true = true →
        spawn_vehicle wOnePoint (some "audi") 0 0 true =
          { log := [], vehicle := some { aid := wOnePoint.nextId, type_id := b.id },
            world := { wOnePoint with
              actors := wOnePoint.actors ++ [{ aid := wOnePoint.nextId, type_id := b.id }],
              nextId := wOnePoint.nextId + 1 } }) ∧
      (true = false →
        spawn_vehicle wOnePoint (some "audi") 0 0 true =
          { log := ["Error spawning vehicle: spawn failed because of collision at spawn position"],
            vehicle := none, world := wOnePoint })) :=
  spawn_one_filter_outcomes wOnePoint "audi" 0 0 true (by decide)

theorem randomChoice_mem {α : Type} (l : List α) (r : Nat) (b : α)
    (h : randomChoice l r = Except.ok b) : b ∈ l := by
  cases l with
  | nil => simp [randomChoice] at h
  | cons x xs =>
    simp only [randomChoice, Except.ok.injEq] at h
    rw [← h]
    exact List.get_mem _ _ _

/-- C9 counterexample: a catalog on which the substring pattern
"*vehicle*" used by `spawn_vehicles` and the plain pattern "vehicle"
used by `spawn_vehicle` select exactly the same blueprint set, so the
no-filter candidate set is not strictly broader than the plain
vehicle-category set for every scene. -/
theorem spawn_candidates_not_strictly_broader :
    filterLib libA "*vehicle*" = filterLib libA "vehicle" := by decide

/-- C9 amended: with no type filters, `spawn_vehicles` draws from the
blueprints matching the substring pattern "*vehicle*" — a superset,
not necessarily strict, of the plain vehicle category that
`spawn_vehicle` with no filter draws from — and each of the `count`
attempts draws independently, with replacement, from that full
candidate list and the full registered spawn-point list, every element
of either list being a possible outcome of its uniform draw. -/
theorem spawn_many_candidate_set (w : World) (num : Nat)
    (rBp rSp : Nat → Nat) (ok : Nat → Bool) (r1 r2 : Nat) (sOk : Bool) :
    resolveCandidates w.blueprint_library none
      = Except.ok (filterLib w.blueprint_library "*vehicle*") ∧
    (∀ b, b ∈ filterLib w.blueprint_library "vehicle" →
      b ∈ filterLib w.blueprint_library "*vehicle*") ∧
    (spawn_vehicles w num none rBp rSp ok).draws
      = (List.range num).map
          (drawAt (filterLib w.blueprint_library "*vehicle*") w.spawn_points rBp rSp) ∧
    (∀ b, b ∈ filterLib w.blueprint_library "*vehicle*" →
      ∃ r, randomChoice (filterLib w.blueprint_library "*vehicle*") r = Except.ok b) ∧
    (∀ p, p ∈ w.spawn_points → ∃ r, randomChoice w.spawn_points r = Except.ok p) ∧
    (∀ a, (spawn_vehicle w none r1 r2 sOk).vehicle = some a →
      ∃ b ∈ filterLib w.blueprint_library "vehicle", a.type_id = b.id) := by
  refine ⟨rfl, fun b => filterLib_vehicle_subset w.blueprint_library b, ?_, ?_, ?_, ?_⟩
  · simp only [spawn_vehicles, resolveCandidates, listTruthy, Bool.false_eq_true, if_false]
    rw [spawnManyLoop_draws]
    simp [Nat.zero_add]
  · intro b hb
    exact randomChoice_support _ b hb
  · intro p hp
    exact randomChoice_support _ p hp
  · intro a ha
    have hstr : strTruthy none = false := rfl
    simp only [spawn_vehicle, spawnOneBody, hstr, Bool.false_eq_true, if_false] at ha
    cases c1 : randomChoice (filterLib w.blueprint_library "vehicle") r1 with
    | error e => rw [c1] at ha; simp at ha
    | ok bp =>
      rw [c1] at ha
      cases c2 : randomChoice w.spawn_points r2 with
      | error e => rw [c2] at ha; simp at ha
      | ok sp =>
        rw [c2] at ha
        cases sOk with
        | false => simp at ha
        | true =>
          simp only [if_true] at ha
          refine ⟨bp, randomChoice_mem _ r1 bp c1, ?_⟩
          have : a = { aid := w.nextId, type_id := bp.id } := by
            simpa using ha.symm
          rw [this]

theorem spawn_many_candidate_set_witness :
    resolveCandidates wOnePoint.blueprint_library none
      = Except.ok (filterLib wOnePoint.blueprint_library "*vehicle*") ∧
    (∀ b, b ∈ filterLib wOnePoint.blueprint_library "vehicle" →
      b ∈ filterLib wOnePoint.blueprint_library "*vehicle*") ∧
    (spawn_vehicles wOnePoint 2 none (fun _ => 0) (fun _ => 0) (fun _ => true)).draws
      = (List.range 2).map
          (drawAt (filterLib wOnePoint.blueprint_library "*vehicle*") wOnePoint.spawn_points
            (fun _ => 0) (fun _ => 0)) ∧
    (∀ b, b ∈ filterLib wOnePoint.blueprint_library "*vehicle*" →
      ∃ r, randomChoice (filterLib wOnePoint.blueprint_library "*vehicle*") r = Except.ok b) ∧
    (∀ p, p ∈ wOnePoint.spawn_points → ∃ r, randomChoice wOnePoint.spawn_points r = Except.ok p) ∧
    (∀ a, (spawn_vehicle wOnePoint none 0 0 true).vehicle = some a →
      ∃ b ∈ filterLib wOnePoint.blueprint_library "vehicle", a.type_id = b.id) :=
  spawn_many_candidate_set wOnePoint 2 (fun _ => 0) (fun _ => 0) (fun _ => true) 0 0 true

theorem setAutopilotGo_decomp (enable : Bool) :
    ∀ acts : List Actor, ∃ pre post,
      acts = pre ++ post ∧
      (setAutopilotGo enable acts).1 = pre.map (setIfVehicle enable) ++ post ∧
      (∀ a ∈ pre, vehicleLike a = true → a.alive = true) ∧
      ((setAutopilotGo enable acts).2 = none ↔ post = []) ∧
      (∀ b l, post = b :: l → vehicleLike b = true ∧ b.alive = false) := by
  intro acts
  induction acts with
  | nil =>
    exact ⟨[], [], rfl, rfl, by simp, by simp [setAutopilotGo], by simp⟩
  | cons a rest ih =>
    obtain ⟨pre, post, h1, h2, h3, h4, h5⟩ := ih
    cases hv : vehicleLike a with
    | true =>
      cases ha : a.alive with
      | true =>
        refine ⟨a :: pre, post, by rw [List.cons_append, ← h1], ?_, ?_, ?_, h5⟩
        · simp [setAutopilotGo, hv, ha, h2, setIfVehicle]
        · intro x hx hvx
          cases List.mem_cons.mp hx with
          | inl hxe => rw [hxe]; exact ha
          | inr hx' => exact h3 x hx' hvx
        · simpa [setAutopilotGo, hv, ha] using h4
      | false =>
        refine ⟨[], a :: rest, rfl, ?_, by simp, ?_, ?_⟩
        · simp [setAutopilotGo, hv, ha]
        · simp [setAutopilotGo, hv, ha]
        · intro b l hbl
          injection hbl with hba hlr
          rw [← hba]
          exact ⟨hv, ha⟩
    | false =>
      refine ⟨a :: pre, post, by rw [List.cons_append, ← h1], ?_, ?_, ?_, h5⟩
      · simp [setAutopilotGo, hv, h2, setIfVehicle]
      · intro x hx hvx
        cases List.mem_cons.mp hx with
        | inl hxe => rw [hxe] at hvx; exact absurd hvx (by simp [hv])
        | inr hx' => exact h3 x hx' hvx
      · simpa [setAutopilotGo, hv] using h4

/-- C8: `set_autopilot` walks the scene's actor list in order and sets
the autonomous-driving flag on exactly the actors whose identifier
contains "vehicle"; a failing mutation (a stale actor) aborts the
remaining iterations with a logged line, so the already-processed
prefix keeps the new flag while the unprocessed suffix — starting at
the failing vehicle — is left unchanged; the log is empty exactly when
the whole list was processed. -/
theorem set_autopilot_ordered_abort (w : World) (enable : Bool) :
    ∃ pre post,
      w.actors = pre ++ post ∧
      (set_autopilot w enable).2.actors = pre.map (setIfVehicle enable) ++ post ∧
      (∀ a ∈ pre, vehicleLike a = true → a.alive = true) ∧
      ((set_autopilot w enable).1 = [] ↔ post = []) ∧
      (∀ b l, post = b :: l → vehicleLike b = true ∧ b.alive = false) := by
  obtain ⟨pre, post, h1, h2, h3, h4, h5⟩ := setAutopilotGo_decomp enable w.actors
  refine ⟨pre, post, h1, ?_, h3, ?_, h5⟩
  · simpa only [set_autopilot] using h2
  · simp only [set_autopilot]
    cases hgo : (setAutopilotGo enable w.actors).2 with
    | none => simpa only [hgo] using h4
    | some e =>
      rw [hgo] at h4
      simp only []
      constructor
      · intro hfalse; cases hfalse
      · intro hpost
        exact absurd (h4.mpr hpost) (by simp)

theorem set_autopilot_ordered_abort_witness :
    ∃ pre post,
      wFleet.actors = pre ++ post ∧
      (set_autopilot wFleet true).2.actors = pre.map (setIfVehicle true) ++ post ∧
      (∀ a ∈ pre, vehicleLike a = true → a.alive = true) ∧
      ((set_autopilot wFleet true).1 = [] ↔ post = []) ∧
      (∀ b l, post = b :: l → vehicleLike b = true ∧ b.alive = false) :=
  set_autopilot_ordered_abort wFleet true

/-! Helper lemmas about the camera-follow loop. -/

theorem followLoop_step (sig : Nat → Bool) (env : FollowEnv) (m i : Nat) (st : FollowState)
    (h0 : sig i = false) (hc0 : env.copyFails i = false) (hi0 : env.interrupt i = false) :
    followLoop (some sig) env (m+1) i st
      = followLoop (some sig) env m (i+1)
          { world := { st.world with spectator := env.camPose i }
            log := st.log
            checks := st.checks + 1
            trace := st.trace ++ [env.camPose i]
            exit := st.exit } := by
  simp [followLoop, h0, hc0, hi0]

theorem followLoop_none_step (env : FollowEnv) (m i : Nat) (st : FollowState)
    (hc0 : env.copyFails i = false) (hi0 : env.interrupt i = false) :
    followLoop none env (m+1) i st
      = followLoop none env m (i+1)
          { world := { st.world with spectator := env.camPose i }
            log := st.log
            checks := st.checks
            trace := st.trace ++ [env.camPose i]
            exit := st.exit } := by
  simp [followLoop, hc0, hi0]

theorem followLoop_stopped_at (sig : Nat → Bool) (env : FollowEnv) :
    ∀ (k n i : Nat) (st : FollowState),
      (∀ j, j < k → sig (i + j) = false) →
      sig (i + k) = true →
      (∀ j, j < k → env.copyFails (i + j) = false) →
      (∀ j, j < k → env.interrupt (i + j) = false) →
      k < n →
      (followLoop (some sig) env n i st).exit = some LoopExit.stopped ∧
      (followLoop (some sig) env n i st).checks = st.checks + (k + 1) ∧
      (followLoop (some sig) env n i st).trace
        = st.trace ++ (List.range k).map (fun j => env.camPose (i + j)) ∧
      (followLoop (some sig) env n i st).world.spectator
        = ((List.range k).map (fun j => env.camPose (i + j))).getLastD st.world.spectator := by
  intro k
  induction k with
  | zero =>
    intro n i st hlt hset hcf hint hn
    cases n with
    | zero => omega
    | succ m =>
      have h0 : sig i = true := by simpa using hset
      simp [followLoop, h0]
  | succ k ih =>
    intro n i st hlt hset hcf hint hn
    cases n with
    | zero => omega
    | succ m =>
      have h0 : sig i = false := by simpa using hlt 0 (by omega)
      have hc0 : env.copyFails i = false := by simpa using hcf 0 (by omega)
      have hi0 : env.interrupt i = false := by simpa using hint 0 (by omega)
      rw [followLoop_step sig env m i st h0 hc0 hi0]
      have hlt' : ∀ j, j < k → sig ((i+1) + j) = false := by
        intro j hj
        have h := hlt (j+1) (by omega)
        rwa [show i + (j+1) = (i+1) + j by omega] at h
      have hset' : sig ((i+1) + k) = true := by
        have h := hset
        rwa [show i + (k+1) = (i+1) + k by omega] at h
      have hcf' : ∀ j, j < k → env.copyFails ((i+1) + j) = false := by
        intro j hj
        have h := hcf (j+1) (by omega)
        rwa [show i + (j+1) = (i+1) + j by omega] at h
      have hint' : ∀ j, j < k → env.interrupt ((i+1) + j) = false := by
        intro j hj
        have h := hint (j+1) (by omega)
        rwa [show i + (j+1) = (i+1) + j by omega] at h
      have ih' := ih m (i+1)
        { world := { st.world with spectator := env.camPose i }
          log := st.log
          checks := st.checks + 1
          trace := st.trace ++ [env.camPose i]
          exit := st.exit } hlt' hset' hcf' hint' (by omega)
      refine ⟨ih'.1, ?_, ?_, ?_⟩
      · rw [ih'.2.1]
        show st.checks + 1 + (k + 1) = st.checks + (k + 1 + 1)
        omega
      · rw [ih'.2.2.1, range_map_shift env.camPose i k]
        simp
      · rw [ih'.2.2.2, range_map_shift env.camPose i k, List.getLastD_cons]

theorem followLoop_none_runs (env : FollowEnv) :
    ∀ (n i : Nat) (st : FollowState),
      (∀ j, j < n → env.copyFails (i + j) = false) →
      (∀ j, j < n → env.interrupt (i + j) = false) →
      (followLoop none env n i st).exit = st.exit ∧
      (followLoop none env n i st).checks = st.checks ∧
      (followLoop none env n i st).trace
        = st.trace ++ (List.range n).map (fun j => env.camPose (i + j)) := by
  intro n
  induction n with
  | zero =>
    intro i st hcf hint
    simp [followLoop]
  | succ n ih =>
    intro i st hcf hint
    have hc0 : env.copyFails i = false := by simpa using hcf 0 (by omega)
    have hi0 : env.interrupt i = false := by simpa using hint 0 (by omega)
    rw [followLoop_none_step env n i st hc0 hi0]
    have hcf' : ∀ j, j < n → env.copyFails ((i+1) + j) = false := by
      intro j hj
      have h := hcf (j+1) (by omega)
      rwa [show i + (j+1) = (i+1) + j by omega] at h
    have hint' : ∀ j, j < n → env.interrupt ((i+1) + j) = false := by
      intro j hj
      have h := hint (j+1) (by omega)
      rwa [show i + (j+1) = (i+1) + j by omega] at h
    have ih' := ih (i+1)
      { world := { st.world with spectator := env.camPose i }
        log := st.log
        checks := st.checks
        trace := st.trace ++ [env.camPose i]
        exit := st.exit } hcf' hint'
    refine ⟨ih'.1, ih'.2.1, ?_⟩
    rw [ih'.2.2, range_map_shift env.camPose i n]
    simp

theorem followLoop_none_interrupted (env : FollowEnv) :
    ∀ (k n i : Nat) (st : FollowState),
      (∀ j, j ≤ k → env.copyFails (i + j) = false) →
      (∀ j, j < k → env.interrupt (i + j) = false) →
      env.interrupt (i + k) = true →
      k < n →
      (followLoop none env n i st).exit = some LoopExit.interrupted ∧
      (followLoop none env n i st).checks = st.checks := by
  intro k
  induction k with
  | zero =>
    intro n i st hcf hint hik hn
    cases n with
    | zero => omega
    | succ m =>
      have hc0 : env.copyFails i = false := by simpa using hcf 0 (by omega)
      have hi0 : env.interrupt i = true := by simpa using hik
      simp [followLoop, hc0, hi0]
  | succ k ih =>
    intro n i st hcf hint hik hn
    cases n with
    | zero => omega
    | succ m =>
      have hc0 : env.copyFails i = false := by simpa using hcf 0 (by omega)
      have hi0 : env.interrupt i = false := by simpa using hint 0 (by omega)
      rw [followLoop_none_step env m i st hc0 hi0]
      have hcf' : ∀ j, j ≤ k → env.copyFails ((i+1) + j) = false := by
        intro j hj
        have h := hcf (j+1) (by omega)
        rwa [show i + (j+1) = (i+1) + j by omega] at h
      have hint' : ∀ j, j < k → env.interrupt ((i+1) + j) = false := by
        intro j hj
        have h := hint (j+1) (by omega)
        rwa [show i + (j+1) = (i+1) + j by omega] at h
      have hik' : env.interrupt ((i+1) + k) = true := by
        have h := hik
        rwa [show i + (k+1) = (i+1) + k by omega] at h
      exact ih m (i+1) _ hcf' hint' hik' (by omega)

theorem followLoop_none_failed (env : FollowEnv) :
    ∀ (k n i : Nat) (st : FollowState),
      (∀ j, j < k → env.copyFails (i + j) = false) →
      (∀ j, j < k → env.interrupt (i + j) = false) →
      env.copyFails (i + k) = true →
      k < n →
      (followLoop none env n i st).exit = some LoopExit.failed ∧
      (followLoop none env n i st).checks = st.checks := by
  intro k
  induction k with
  | zero =>
    intro n i st hcf hint hik hn
    cases n with
    | zero => omega
    | succ m =>
      have hc0 : env.copyFails i = true := by simpa using hik
      simp [followLoop, hc0]
  | succ k ih =>
    intro n i st hcf hint hik hn
    cases n with
    | zero => omega
    | succ m =>
      have hc0 : env.copyFails i = false := by simpa using hcf 0 (by omega)
      have hi0 : env.interrupt i = false := by simpa using hint 0 (by omega)
      rw [followLoop_none_step env m i st hc0 hi0]
      have hcf' : ∀ j, j < k → env.copyFails ((i+1) + j) = false := by
        intro j hj
        have h := hcf (j+1) (by omega)
        rwa [show i + (j+1) = (i+1) + j by omega] at h
      have hint' : ∀ j, j < k → env.interrupt ((i+1) + j) = false := by
        intro j hj
        have h := hint (j+1) (by omega)
        rwa [show i + (j+1) = (i+1) + j by omega] at h
      have hik' : env.copyFails ((i+1) + k) = true := by
        have h := hik
        rwa [show i + (k+1) = (i+1) + k by omega] at h
      exact ih m (i+1) _ hcf' hint' hik' (by omega)

theorem follow_vehicle_ok (w : World) (vehicle : Actor) (se : Option (Nat → Bool))
    (env : FollowEnv) (fuel : Nat) (hsetup : env.spawnRaises = false) :
    follow_vehicle w vehicle se env fuel
      = Except.ok (followLoop se env fuel 0 (followInit w vehicle env)) := by
  simp [follow_vehicle, followInit, hsetup]

/-- C1: with a stop signal first observed set at loop iteration `k`
(and the loop otherwise undisturbed until then), `follow_vehicle`'s
polling loop consults the signal exactly once per iteration — `k + 1`
consultations in all — and terminates cleanly at the loop-top check of
iteration `k`; on each of the `k` earlier iterations it copies the
camera's current pose onto the spectator (viewpoint) actor, whose pose
therefore tracks the camera pose at every iteration boundary. -/
theorem follow_stop_signal_bounded_termination (w : World) (vehicle : Actor)
    (sig : Nat → Bool) (env : FollowEnv) (k fuel : Nat)
    (hsetup : env.spawnRaises = false)
    (hfirst : ∀ j, j < k → sig j = false) (hset : sig k = true)
    (hcf : ∀ j, j < k → env.copyFails j = false)
    (hint : ∀ j, j < k → env.interrupt j = false)
    (hfuel : k < fuel) :
    ∃ st, follow_vehicle w vehicle (some sig) env fuel = Except.ok st ∧
      st.exit = some LoopExit.stopped ∧
      st.checks = k + 1 ∧
      st.trace = (List.range k).map env.camPose ∧
      st.world.spectator = ((List.range k).map env.camPose).getLastD env.setupPose := by
  rw [follow_vehicle_ok w vehicle (some sig) env fuel hsetup]
  have hfun : (fun j => env.camPose (0 + j)) = env.camPose := by
    funext j
    rw [Nat.zero_add]
  have hlt0 : ∀ j, j < k → sig (0 + j) = false := by
    intro j hj
    rw [Nat.zero_add]
    exact hfirst j hj
  have hset0 : sig (0 + k) = true := by
    rw [Nat.zero_add]
    exact hset
  have hcf0 : ∀ j, j < k → env.copyFails (0 + j) = false := by
    intro j hj
    rw [Nat.zero_add]
    exact hcf j hj
  have hint0 : ∀ j, j < k → env.interrupt (0 + j) = false := by
    intro j hj
    rw [Nat.zero_add]
    exact hint j hj
  have h := followLoop_stopped_at sig env k fuel 0 (followInit w vehicle env)
    hlt0 hset0 hcf0 hint0 hfuel
  refine ⟨_, rfl, h.1, ?_, ?_, ?_⟩
  · rw [h.2.1]
    show 0 + (k + 1) = k + 1
    omega
  · rw [h.2.2.1, hfun]
    show [] ++ (List.range k).map env.camPose = (List.range k).map env.camPose
    simp
  · rw [h.2.2.2, hfun]
    rfl

theorem follow_stop_signal_bounded_termination_witness :
    ∃ st, follow_vehicle wOnePoint vehW (some sigW) {} 4 = Except.ok st ∧
      st.exit = some LoopExit.stopped ∧
      st.checks = 2 + 1 ∧
      st.trace = (List.range 2).map ({} : FollowEnv).camPose ∧
      st.world.spectator
        = ((List.range 2).map ({} : FollowEnv).camPose).getLastD ({} : FollowEnv).setupPose :=
  follow_stop_signal_bounded_termination wOnePoint vehW sigW {} 2 4 rfl
    (by decide) (by decide) (by decide) (by decide) (by omega)

/-- C3 counterexample: a failure in `follow_vehicle`'s setup phase —
which the source runs before any `try/except` — escapes to the caller
as an exception instead of being caught, logged and converted into a
local failure indicator. -/
theorem follow_setup_exception_escapes :
    follow_vehicle wOnePoint vehW none envRaise 1
      = Except.error "unable to attach camera: parent actor destroyed" := by decide

/-- C3 amended: every operation of the module catches failures at its
own boundary, logs a descriptive line and returns its local failure
indicator — except `follow_vehicle`'s setup phase, which runs before
its `try/except` and lets a failure propagate to the caller; once the
setup phase has succeeded, `follow_vehicle` (its loop included) never
lets a failure escape either. -/
theorem failures_caught_at_own_boundary :
    (∀ env host port timeout sy s e,
      connectBody env host port timeout sy s = Except.error e →
      connect_to_carla env host port timeout sy s
        = (["Error connecting to Carla: " ++ e], none, none)) ∧
    (∀ w vt r1 r2 ok e, spawnOneBody w vt r1 r2 ok = Except.error e →
      spawn_vehicle w vt r1 r2 ok
        = { log := ["Error spawning vehicle: " ++ e], vehicle := none, world := w }) ∧
    (∀ w num vt rBp rSp ok e,
      resolveCandidates w.blueprint_library vt = Except.error e →
      spawn_vehicles w num vt rBp rSp ok
        = { log := ["Error spawning vehicles: " ++ e], world := w,
            attempts := 0, draws := [] }) ∧
    (∀ w enable e, (setAutopilotGo enable w.actors).2 = some e →
      (set_autopilot w enable).1 = ["Error setting autopilot: " ++ e]) ∧
    (∀ w raises e, (destroyGo raises w.actors 0).2 = some e →
      (destroy_actors w raises).1 = ["Error destroying actors: " ++ e]) ∧
    (∀ w v se env fuel, env.spawnRaises = false →
      ∃ st, follow_vehicle w v se env fuel = Except.ok st) ∧
    (∀ w v se env fuel, env.spawnRaises = true →
      follow_vehicle w v se env fuel
        = Except.error "unable to attach camera: parent actor destroyed") := by
  refine ⟨?_, ?_, ?_, ?_, ?_, ?_, ?_⟩
  · intro env host port timeout sy s e h
    simp [connect_to_carla, h]
  · intro w vt r1 r2 ok e h
    simp [spawn_vehicle, h]
  · intro w num vt rBp rSp ok e h
    simp [spawn_vehicles, h]
  · intro w enable e h
    simp [set_autopilot, h]
  · intro w raises e h
    simp [destroy_actors, h]
  · intro w v se env fuel hsetup
    exact ⟨_, follow_vehicle_ok w v se env fuel hsetup⟩
  · intro w v se env fuel hsetup
    simp [follow_vehicle, hsetup]

theorem failures_caught_at_own_boundary_witness :
    connect_to_carla { world := {}, clientRaises := true } "h" 2000 10 false (mkRat 1 20)
      = (["Error connecting to Carla: connection refused"], none, none) :=
  failures_caught_at_own_boundary.1 { world := {}, clientRaises := true }
    "h" 2000 10 false (mkRat 1 20) "connection refused" rfl

/-- C10: `follow_vehicle`'s setup phase runs unconditionally before the
stop signal is ever consulted — with the signal already set at call
time the camera actor is still spawned attached to the target, the
spectator is still snapped once to the camera's pose, and the loop
then terminates at its very first loop-top check; with no stop event
supplied the signal is never consulted and the loop keeps copying
poses for as much fuel as it is given, ending only through an external
interrupt or a pose-copy failure. -/
theorem follow_setup_runs_before_signal :
    (∀ (w : World) (v : Actor) (sig : Nat → Bool) (env : FollowEnv) (fuel : Nat),
      env.spawnRaises = false → sig 0 = true → 0 < fuel →
      ∃ st, follow_vehicle w v (some sig) env fuel = Except.ok st ∧
        st.world.actors = w.actors ++
          [{ aid := w.nextId, type_id := "sensor.camera.rgb",
             attachedTo := some v.aid, rel := some cameraRel }] ∧
        st.world.spectator = env.setupPose ∧
        st.trace = [] ∧ st.checks = 1 ∧ st.exit = some LoopExit.stopped) ∧
    (∀ (w : World) (v : Actor) (env : FollowEnv) (fuel : Nat),
      env.spawnRaises = false →
      (∀ j, j < fuel → env.copyFails j = false) →
      (∀ j, j < fuel → env.interrupt j = false) →
      ∃ st, follow_vehicle w v none env fuel = Except.ok st ∧
        st.checks = 0 ∧ st.exit = none ∧
        st.trace = (List.range fuel).map env.camPose) ∧
    (∀ (w : World) (v : Actor) (env : FollowEnv) (fuel k : Nat),
      env.spawnRaises = false → k < fuel →
      (∀ j, j ≤ k → env.copyFails j = false) →
      (∀ j, j < k → env.interrupt j = false) →
      env.interrupt k = true →
      ∃ st, follow_vehicle w v none env fuel = Except.ok st ∧
        st.checks = 0 ∧ st.exit = some LoopExit.interrupted) ∧
    (∀ (w : World) (v : Actor) (env : FollowEnv) (fuel k : Nat),
      env.spawnRaises = false → k < fuel →
      (∀ j, j < k → env.copyFails j = false) →
      (∀ j, j < k → env.interrupt j = false) →
      env.copyFails k = true →
      ∃ st, follow_vehicle w v none env fuel = Except.ok st ∧
        st.checks = 0 ∧ st.exit = some LoopExit.failed) := by
  refine ⟨?_, ?_, ?_, ?_⟩
  · intro w v sig env fuel hsetup hsig hfuel
    cases fuel with
    | zero => omega
    | succ m =>
      rw [follow_vehicle_ok w v (some sig) env (m+1) hsetup]
      exact ⟨_, rfl, by simp [followLoop, hsig, followInit],
        by simp [followLoop, hsig, followInit], by simp [followLoop, hsig, followInit],
        by simp [followLoop, hsig, followInit], by simp [followLoop, hsig, followInit]⟩
  · intro w v env fuel hsetup hcf hint
    rw [follow_vehicle_ok w v none env fuel hsetup]
    have hcf0 : ∀ j, j < fuel → env.copyFails (0 + j) = false := by
      intro j hj
      rw [Nat.zero_add]
      exact hcf j hj
    have hint0 : ∀ j, j < fuel → env.interrupt (0 + j) = false := by
      intro j hj
      rw [Nat.zero_add]
      exact hint j hj
    have h := followLoop_none_runs env fuel 0 (followInit w v env) hcf0 hint0
    have hfun : (fun j => env.camPose (0 + j)) = env.camPose := by
      funext j
      rw [Nat.zero_add]
    refine ⟨_, rfl, ?_, h.1, ?_⟩
    · rw [h.2.1]
      rfl
    · rw [h.2.2, hfun]
      show [] ++ (List.range fuel).map env.camPose = (List.range fuel).map env.camPose
      simp
  · intro w v env fuel k hsetup hfuel hcf hint hik
    rw [follow_vehicle_ok w v none env fuel hsetup]
    have hcf0 : ∀ j, j ≤ k → env.copyFails (0 + j) = false := by
      intro j hj
      rw [Nat.zero_add]
      exact hcf j hj
    have hint0 : ∀ j, j < k → env.interrupt (0 + j) = false := by
      intro j hj
      rw [Nat.zero_add]
      exact hint j hj
    have hik0 : env.interrupt (0 + k) = true := by
      rw [Nat.zero_add]
      exact hik
    have h := followLoop_none_interrupted env k fuel 0 (followInit w v env)
      hcf0 hint0 hik0 hfuel
    refine ⟨_, rfl, ?_, h.1⟩
    rw [h.2]
    rfl
  · intro w v env fuel k hsetup hfuel hcf hint hik
    rw [follow_vehicle_ok w v none env fuel hsetup]
    have hcf0 : ∀ j, j < k → env.copyFails (0 + j) = false := by
      intro j hj
      rw [Nat.zero_add]
      exact hcf j hj
    have hint0 : ∀ j, j < k → env.interrupt (0 + j) = false := by
      intro j hj
      rw [Nat.zero_add]
      exact hint j hj
    have hik0 : env.copyFails (0 + k) = true := by
      rw [Nat.zero_add]
      exact hik
    have h := followLoop_none_failed env k fuel 0 (followInit w v env)
      hcf0 hint0 hik0 hfuel
    refine ⟨_, rfl, ?_, h.1⟩
    rw [h.2]
    rfl

theorem follow_setup_runs_before_signal_witness :
    ∃ st, follow_vehicle wOnePoint vehW (some (fun _ => true)) ({} : FollowEnv) 1
        = Except.ok st ∧
      st.world.actors = wOnePoint.actors ++
        [{ aid := wOnePoint.nextId, type_id := "sensor.camera.rgb",
           attachedTo := some vehW.aid, rel := some cameraRel }] ∧
      st.world.spectator = ({} : FollowEnv).setupPose ∧
      st.trace = [] ∧ st.checks = 1 ∧ st.exit = some LoopExit.stopped :=
  follow_setup_runs_before_signal.1 wOnePoint vehW (fun _ => true) {} 1 rfl rfl
    (by omega)

end CarlaBC

